import Mathlib

/-!
Shallow embedding of the coopbase authentication/registration backend
(`backend/controllers/authController.js`, `backend/config/db.js`).

The database is a record of tables (lists of rows).  The persistence
gateway `query` in `backend/config/db.js` is `(sql, params) => pool.execute(sql, params)`:
every SQL statement checks out a connection from the shared pool, runs the
statement on it through MySQL's prepared-statement protocol, and releases
the connection back to the pool.  We model the pool as a FIFO list of
connections, each of which optionally holds the statement buffer of an open
transaction.  Two facts of the required database (MySQL, per the README)
are modelled faithfully: the prepared-statement protocol does not permit
`START TRANSACTION` or `ROLLBACK` (MySQL rejects preparing them with
ER_UNSUPPORTED_PS — the permitted-statement list contains `COMMIT` but
neither of those), so `query('START TRANSACTION')` and `query('ROLLBACK')`
always throw; and inserts are subject to the schema's FOREIGN KEY
constraints (`users.society_id`, `society_documents.society_id`,
`audit_logs.user_id`, `audit_logs.society_id`), so an insert referencing a
missing parent row throws ER_NO_REFERENCED_ROW.  Infrastructure DB errors
are additionally injected by an environment predicate `failAt` indexed by
the per-request statement counter, mirroring `await query(...)` throwing.
Bcrypt, JWT and uuidv4 are modelled as abstract environment functions.
-/

set_option autoImplicit false

namespace Coopbase

/-- Row of the `societies` table (schema in `backend/config/db.js`). -/
structure SocietyRow where
  id : String
  name : String
  registration_number : String
  society_type : String
  establishment_date : String
  address : String
  status : String
  updated_at : Nat
deriving Repr, DecidableEq

/-- Row of the `users` table. -/
structure UserRow where
  id : String
  email : String
  password : String
  name : String
  phone : String
  role : String
  society_id : Option String
  status : String
deriving Repr, DecidableEq

/-- Row of the `society_documents` table. -/
structure DocumentRow where
  id : String
  society_id : String
  document_type : String
  file_name : String
  file_path : String
  file_size : Nat
  mime_type : String
deriving Repr, DecidableEq

/-- Row of the `audit_logs` table; the JSON payloads are modelled as
key/value lists. -/
structure AuditRow where
  id : String
  user_id : Option String
  society_id : Option String
  action : String
  table_name : String
  record_id : Option String
  old_values : Option (List (String × String))
  new_values : Option (List (String × String))
  ip_address : String
  user_agent : String
deriving Repr, DecidableEq

/-- The tables touched by the modelled flows. -/
structure DB where
  societies : List SocietyRow
  users : List UserRow
  society_documents : List DocumentRow
  audit_logs : List AuditRow
deriving Repr, DecidableEq

/-- A write statement issued through the persistence gateway. -/
inductive Stmt where
  | insSociety (r : SocietyRow)
  | insUser (r : UserRow)
  | insDocument (r : DocumentRow)
  | insAudit (r : AuditRow)
  | updSocietyStatus (status : String) (id : String) (now : Nat)
deriving Repr, DecidableEq

/-- Effect of a committed write statement on the store.  `updSocietyStatus`
is the `UPDATE societies SET status = ?, updated_at = CURRENT_TIMESTAMP
WHERE id = ?` statement of `updateSocietyApproval`. -/
def applyStmt (db : DB) : Stmt → DB
  | .insSociety r => { db with societies := db.societies ++ [r] }
  | .insUser r => { db with users := db.users ++ [r] }
  | .insDocument r => { db with society_documents := db.society_documents ++ [r] }
  | .insAudit r => { db with audit_logs := db.audit_logs ++ [r] }
  | .updSocietyStatus st sid now =>
      { db with societies := db.societies.map (fun s => if s.id = sid then { s with status := st, updated_at := now } else s) }

/-- Replay a transaction buffer onto the store (what `COMMIT` does). -/
def applyAll (db : DB) (buf : List Stmt) : DB := buf.foldl applyStmt db

/-- A pooled connection: `none` when in autocommit mode, `some buf` when it
holds an open transaction with the buffered statements `buf`. -/
abbrev Conn := Option (List Stmt)

/-- Execution state of one request: the store, the connection pool (FIFO
free list), the number of statements issued so far and the number of
uuidv4 values drawn so far. -/
structure St where
  db : DB
  pool : List Conn
  qidx : Nat
  uidx : Nat
deriving Repr, DecidableEq

/-- Decoded JWT payload (`jwt.sign({ userId, email, role, societyId? })`). -/
structure TokenClaims where
  userId : String
  email : String
  role : String
  societyId : Option String
deriving Repr, DecidableEq

/-- Ambient environment: uuid supply, bcrypt, JWT, injected DB errors and
the clock. -/
structure Env where
  ids : Nat → String
  bcryptHash : String → String
  bcryptCompare : String → String → Bool
  jwtSign : TokenClaims → String
  jwtVerify : String → Option TokenClaims
  failAt : Nat → Bool
  now : Nat

/-- Result of one `await query(...)`: the value and the state after, or the
state after a thrown DB error. -/
inductive QRes (α : Type) where
  | ok (a : α) (st : St)
  | err (st : St)

/-- Check a connection out of the pool (`pool.getConnection`): take the
front of the free list, creating a fresh autocommit connection when the
pool is empty (lazy connection creation). -/
def takeConn : List Conn → Conn × List Conn
  | [] => (none, [])
  | c :: rest => (c, rest)

/-- Run a read-only statement (`SELECT`): checks a connection out, reads
the store as seen by that connection, releases the connection. -/
def runRead {α : Type} (env : Env) (st : St) (f : DB → α) : QRes α :=
  let c := (takeConn st.pool).1
  let rest := (takeConn st.pool).2
  if env.failAt st.qidx then
    .err { st with pool := rest ++ [c], qidx := st.qidx + 1 }
  else
    let vdb := match c with
      | some buf => applyAll st.db buf
      | none => st.db
    .ok (f vdb) { st with pool := rest ++ [c], qidx := st.qidx + 1 }

/-- Foreign-key admissibility of a write statement against the visible
store (schema in `backend/config/db.js`): `users.society_id`,
`society_documents.society_id`, `audit_logs.user_id` and
`audit_logs.society_id` all reference parent rows; a non-NULL reference to
a missing parent makes the INSERT throw ER_NO_REFERENCED_ROW. -/
def fkOk (db : DB) : Stmt → Bool
  | .insSociety _ => true
  | .insUser r =>
    match r.society_id with
    | none => true
    | some sid => db.societies.any (fun s => s.id = sid)
  | .insDocument r => db.societies.any (fun s => s.id = r.society_id)
  | .insAudit r =>
    (match r.user_id with
     | none => true
     | some uid => db.users.any (fun u => u.id = uid)) &&
    (match r.society_id with
     | none => true
     | some sid => db.societies.any (fun s => s.id = sid))
  | .updSocietyStatus _ _ _ => true

/-- Run a write statement: it throws on an injected DB error or a
foreign-key violation against the connection's view of the store;
otherwise, on a connection with an open transaction the statement is
buffered, and on an autocommit connection it is applied to the store
immediately. -/
def runStmt (env : Env) (st : St) (s : Stmt) : QRes Unit :=
  let c := (takeConn st.pool).1
  let rest := (takeConn st.pool).2
  let vdb := match c with
    | some buf => applyAll st.db buf
    | none => st.db
  if env.failAt st.qidx || !(fkOk vdb s) then
    .err { st with pool := rest ++ [c], qidx := st.qidx + 1 }
  else
    match c with
    | some buf => .ok () { st with pool := rest ++ [some (buf ++ [s])], qidx := st.qidx + 1 }
    | none => .ok () { st with db := applyStmt st.db s, pool := rest ++ [none], qidx := st.qidx + 1 }

/-- `await query('START TRANSACTION')`: `query` is `pool.execute`, which
prepares its statement, and MySQL's prepared-statement protocol does not
permit `START TRANSACTION` (ER_UNSUPPORTED_PS), so this call always
throws; the checked-out connection is released unchanged. -/
def runStartTxn (_env : Env) (st : St) : QRes Unit :=
  let c := (takeConn st.pool).1
  let rest := (takeConn st.pool).2
  .err { st with pool := rest ++ [c], qidx := st.qidx + 1 }

/-- Run `COMMIT` (which MySQL does permit in prepared statements) on
whichever connection the pool hands out; a no-op when that connection has
no open transaction.  Unreachable in practice, since no transaction can
ever be opened through `query`. -/
def runCommit (env : Env) (st : St) : QRes Unit :=
  let c := (takeConn st.pool).1
  let rest := (takeConn st.pool).2
  if env.failAt st.qidx then
    .err { st with pool := rest ++ [c], qidx := st.qidx + 1 }
  else
    match c with
    | some buf => .ok () { st with db := applyAll st.db buf, pool := rest ++ [none], qidx := st.qidx + 1 }
    | none => .ok () { st with pool := rest ++ [none], qidx := st.qidx + 1 }

/-- `await query('ROLLBACK')`: like `START TRANSACTION`, `ROLLBACK` is not
in MySQL's permitted prepared-statement list, so this call always throws;
the checked-out connection is released unchanged. -/
def runRollback (_env : Env) (st : St) : QRes Unit :=
  let c := (takeConn st.pool).1
  let rest := (takeConn st.pool).2
  .err { st with pool := rest ++ [c], qidx := st.qidx + 1 }

/-- HTTP response as the handlers build it: status code, machine-readable
error label, message, remaining JSON fields flattened to key/value pairs,
plus the structured payloads some endpoints return. -/
structure ApiResponse where
  status : Nat
  error : Option String
  message : String
  body : List (String × String) := []
  documents : List (String × String) := []
  pendingRows : List (SocietyRow × (Option UserRow × Nat)) := []
deriving Repr, DecidableEq

/-- Error response helper. -/
def resp (s : Nat) (e m : String) : ApiResponse :=
  { status := s, error := some e, message := m }

/-- `logAuditTrail` (authController.js lines 491-505): append one audit row;
a thrown DB error is caught and swallowed. -/
def logAuditTrail (env : Env) (userId societyId : Option String)
    (action tableName : String) (recordId : Option String)
    (oldValues newValues : Option (List (String × String)))
    (ip ua : String) (st : St) : St :=
  let aid := env.ids st.uidx
  let st1 := { st with uidx := st.uidx + 1 }
  match runStmt env st1 (.insAudit ⟨aid, userId, societyId, action, tableName,
      recordId, oldValues, newValues, ip, ua⟩) with
  | .ok _ st2 => st2
  | .err st2 => st2

/-- Login request body plus request provenance. -/
structure LoginReq where
  email : String
  password : String
  ip : String
  userAgent : String

/-- `SELECT * FROM users WHERE email = ? AND role = "developer" AND status
= "active"`. -/
def findDeveloper (db : DB) (email : String) : List UserRow :=
  db.users.filter
    (fun u => u.email = email ∧ u.role = "developer" ∧ u.status = "active")

/-- `developerLogin` (authController.js lines 9-80). -/
def developerLogin (env : Env) (req : LoginReq) (st0 : St) : ApiResponse × St :=
  if req.email = "" ∨ req.password = "" then
    (resp 400 "Missing required fields" "Email and password are required", st0)
  else
    match runRead env st0 (fun db => findDeveloper db req.email) with
    | .err st => (resp 500 "Internal server error" "An error occurred during login", st)
    | .ok users st1 =>
      match users with
      | [] => (resp 401 "Authentication failed" "Invalid email or password", st1)
      | user :: _ =>
        if env.bcryptCompare req.password user.password = false then
          (resp 401 "Authentication failed" "Invalid email or password", st1)
        else
          let token := env.jwtSign ⟨user.id, user.email, user.role, none⟩
          let st2 := logAuditTrail env (some user.id) none "LOGIN" "users"
            (some user.id) none (some [("email", user.email), ("role", user.role)])
            req.ip req.userAgent st1
          ({ status := 200, error := none, message := "Login successful",
             body := [("token", token), ("id", user.id), ("email", user.email),
                      ("name", user.name), ("role", user.role)] }, st2)

/-- The `users JOIN societies` lookup of `societyLogin`: active
society-admin users with the given email, paired with their owning
society (inner join on `u.society_id = s.id`). -/
def societyLoginLookup (db : DB) (email : String) : List (UserRow × SocietyRow) :=
  db.users.filterMap
    (fun u =>
      if u.email = email ∧ u.role = "society_admin" ∧ u.status = "active" then
        (db.societies.find? (fun s => u.society_id = some s.id)).map (fun s => (u, s))
      else none)

/-- `societyLogin` (authController.js lines 83-169). -/
def societyLogin (env : Env) (req : LoginReq) (st0 : St) : ApiResponse × St :=
  if req.email = "" ∨ req.password = "" then
    (resp 400 "Missing required fields" "Email and password are required", st0)
  else
    match runRead env st0 (fun db => societyLoginLookup db req.email) with
    | .err st => (resp 500 "Internal server error" "An error occurred during login", st)
    | .ok users st1 =>
      match users with
      | [] => (resp 401 "Authentication failed" "Invalid email or password", st1)
      | (user, soc) :: _ =>
        if soc.status ≠ "approved" then
          (resp 403 "Society not approved" "Your society registration is still pending approval", st1)
        else if env.bcryptCompare req.password user.password = false then
          (resp 401 "Authentication failed" "Invalid email or password", st1)
        else
          let token := env.jwtSign ⟨user.id, user.email, user.role, some soc.id⟩
          let st2 := logAuditTrail env (some user.id) (some soc.id) "LOGIN" "users"
            (some user.id) none
            (some [("email", user.email), ("role", user.role), ("society_id", soc.id)])
            req.ip req.userAgent st1
          ({ status := 200, error := none, message := "Login successful",
             body := [("token", token), ("societyId", soc.id), ("id", user.id),
                      ("email", user.email), ("name", user.name), ("role", user.role),
                      ("societyName", soc.name)] }, st2)

/-- One uploaded multipart file as multer presents it. -/
structure FilePart where
  originalname : String
  path : String
  size : Nat
  mimetype : String
deriving Repr, DecidableEq

/-- `req.files` for the registration endpoint: at most one certificate, at
most one bylaws file, and the list of additional documents. -/
structure RegFiles where
  registrationCertificate : Option FilePart
  bylaws : Option FilePart
  additionalDocs : List FilePart
deriving Repr, DecidableEq

/-- Registration request: textual body fields (empty string models a
missing/falsy field), uploaded files (`none` models an absent `req.files`)
and request provenance. -/
structure RegReq where
  societyName : String
  registrationNumber : String
  societyType : String
  establishmentDate : String
  societyAddress : String
  adminName : String
  adminEmail : String
  adminPhone : String
  password : String
  files : Option RegFiles
  ip : String
  userAgent : String
deriving Repr, DecidableEq

/-- The `!field || ...` chain of `societyRegister`. -/
def regFieldsMissing (r : RegReq) : Bool :=
  r.societyName = "" ∨ r.registrationNumber = "" ∨ r.societyType = "" ∨
  r.establishmentDate = "" ∨ r.societyAddress = "" ∨ r.adminName = "" ∨
  r.adminEmail = "" ∨ r.adminPhone = "" ∨ r.password = ""

/-- `SELECT id FROM societies WHERE registration_number = ?`. -/
def findSocietyByRegnum (db : DB) (rn : String) : List SocietyRow :=
  db.societies.filter (fun s => s.registration_number = rn)

/-- `SELECT id FROM users WHERE email = ?`. -/
def findUserByEmail (db : DB) (email : String) : List UserRow :=
  db.users.filter (fun u => u.email = email)

/-- The 500 response of `societyRegister`'s outer catch. -/
def regErrorResp : ApiResponse :=
  resp 500 "Internal server error" "An error occurred during registration"

/-- Inner-catch path of `societyRegister`: issue `ROLLBACK` through the
pool, then rethrow into the outer catch (a 500 either way). -/
def regRollback (env : Env) (st : St) : ApiResponse × St :=
  match runRollback env st with
  | .ok _ st1 => (regErrorResp, st1)
  | .err st1 => (regErrorResp, st1)

/-- Insert the registration certificate document row, if that file is
present. -/
def regInsertCert (env : Env) (sid : String) (files : RegFiles) (st : St)
    (docs : List (String × String)) : QRes (List (String × String)) :=
  match files.registrationCertificate with
  | none => .ok docs st
  | some f =>
    let did := env.ids st.uidx
    let st1 := { st with uidx := st.uidx + 1 }
    match runStmt env st1 (.insDocument ⟨did, sid, "registration_certificate",
        f.originalname, f.path, f.size, f.mimetype⟩) with
    | .err st2 => .err st2
    | .ok _ st2 => .ok (docs ++ [("registration_certificate", f.originalname)]) st2

/-- Insert the bylaws document row, if that file is present. -/
def regInsertBylaws (env : Env) (sid : String) (files : RegFiles) (st : St)
    (docs : List (String × String)) : QRes (List (String × String)) :=
  match files.bylaws with
  | none => .ok docs st
  | some f =>
    let did := env.ids st.uidx
    let st1 := { st with uidx := st.uidx + 1 }
    match runStmt env st1 (.insDocument ⟨did, sid, "bylaws",
        f.originalname, f.path, f.size, f.mimetype⟩) with
    | .err st2 => .err st2
    | .ok _ st2 => .ok (docs ++ [("bylaws", f.originalname)]) st2

/-- Insert one document row per additional uploaded file. -/
def regInsertAdditional (env : Env) (sid : String) (fs : List FilePart) (st : St)
    (docs : List (String × String)) : QRes (List (String × String)) :=
  match fs with
  | [] => .ok docs st
  | f :: rest =>
    let did := env.ids st.uidx
    let st1 := { st with uidx := st.uidx + 1 }
    match runStmt env st1 (.insDocument ⟨did, sid, "additional",
        f.originalname, f.path, f.size, f.mimetype⟩) with
    | .err st2 => .err st2
    | .ok _ st2 => regInsertAdditional env sid rest st2 (docs ++ [("additional", f.originalname)])

/-- Body of `societyRegister`'s inner try (authController.js lines
232-308): insert society, hash password, insert admin user, insert the
document rows, `COMMIT`, audit-log, respond 201; any thrown step goes to
the inner catch (`ROLLBACK` then rethrow). -/
def regTxnBody (env : Env) (req : RegReq) (files : RegFiles) (st : St) : ApiResponse × St :=
  let societyId := env.ids st.uidx
  let stA := { st with uidx := st.uidx + 1 }
  match runStmt env stA (.insSociety ⟨societyId, req.societyName, req.registrationNumber,
      req.societyType, req.establishmentDate, req.societyAddress, "pending", env.now⟩) with
  | .err st1 => regRollback env st1
  | .ok _ st1 =>
    let hashed := env.bcryptHash req.password
    let userId := env.ids st1.uidx
    let stB := { st1 with uidx := st1.uidx + 1 }
    match runStmt env stB (.insUser ⟨userId, req.adminEmail, hashed, req.adminName,
        req.adminPhone, "society_admin", some societyId, "active"⟩) with
    | .err st2 => regRollback env st2
    | .ok _ st2 =>
      match regInsertCert env societyId files st2 [] with
      | .err st3 => regRollback env st3
      | .ok docs1 st3 =>
        match regInsertBylaws env societyId files st3 docs1 with
        | .err st4 => regRollback env st4
        | .ok docs2 st4 =>
          match regInsertAdditional env societyId files.additionalDocs st4 docs2 with
          | .err st5 => regRollback env st5
          | .ok docs3 st5 =>
            match runCommit env st5 with
            | .err st6 => regRollback env st6
            | .ok _ st6 =>
              let st7 := logAuditTrail env (some userId) (some societyId)
                "SOCIETY_REGISTRATION" "societies" (some societyId) none
                (some [("society_name", req.societyName),
                       ("registration_number", req.registrationNumber),
                       ("admin_email", req.adminEmail),
                       ("documents_count", toString docs3.length)])
                req.ip req.userAgent st6
              ({ status := 201, error := none,
                 message := "Society registration submitted successfully",
                 body := [("societyId", societyId), ("status", "pending")],
                 documents := docs3 }, st7)

/-- `societyRegister` (authController.js lines 172-323). -/
def societyRegister (env : Env) (req : RegReq) (st0 : St) : ApiResponse × St :=
  if regFieldsMissing req then
    (resp 400 "Missing required fields" "All required fields must be provided", st0)
  else
    match runRead env st0 (fun db => findSocietyByRegnum db req.registrationNumber) with
    | .err st => (regErrorResp, st)
    | .ok existingSocieties st1 =>
      if existingSocieties ≠ [] then
        (resp 409 "Registration number already exists"
          "A society with this registration number is already registered", st1)
      else
        match runRead env st1 (fun db => findUserByEmail db req.adminEmail) with
        | .err st => (regErrorResp, st)
        | .ok existingUsers st2 =>
          if existingUsers ≠ [] then
            (resp 409 "Email already exists"
              "A user with this email is already registered", st2)
          else
            match req.files with
            | none =>
              (resp 400 "Missing required documents"
                "Registration certificate and bylaws are required", st2)
            | some files =>
              if files.registrationCertificate = none ∨ files.bylaws = none then
                (resp 400 "Missing required documents"
                  "Registration certificate and bylaws are required", st2)
              else
                match runStartTxn env st2 with
                | .err st => (regErrorResp, st)
                | .ok _ st3 => regTxnBody env req files st3

/-- The pending-societies query: `societies LEFT JOIN users (society_admin)
LEFT JOIN society_documents ... COUNT(sd.id) GROUP BY s.id`.  Per the SQL's
join-then-group shape, `COUNT(sd.id)` counts join rows with a document, so
the document count is multiplied by the number of admin rows (one factor of
1 when the society has no admin), and the reported admin columns come from
one arbitrary row of the group (modelled as the first matching user). -/
def pendingSocieties (db : DB) : List (SocietyRow × (Option UserRow × Nat)) :=
  (db.societies.filter (fun s => s.status = "pending")).map
    (fun s =>
      let admins := db.users.filter (fun u => u.society_id = some s.id ∧ u.role = "society_admin")
      (s, (admins.head?,
           max admins.length 1 * (db.society_documents.filter (fun d => d.society_id = s.id)).length)))

/-- `getPendingSocieties` (authController.js lines 326-368); `token` is
the bearer token extracted from the authorization header, `none` when the
request carries no token. -/
def getPendingSocieties (env : Env) (token : Option String) (st0 : St) : ApiResponse × St :=
  match token with
  | none => (resp 401 "Unauthorized" "Access token required", st0)
  | some t =>
    match env.jwtVerify t with
    | none =>
      (resp 500 "Internal server error"
        "An error occurred while retrieving pending societies", st0)
    | some decoded =>
      if decoded.role ≠ "developer" then
        (resp 403 "Forbidden" "Access denied", st0)
      else
        match runRead env st0 pendingSocieties with
        | .err st =>
          (resp 500 "Internal server error"
            "An error occurred while retrieving pending societies", st)
        | .ok rows st1 =>
          ({ status := 200, error := none,
             message := "Pending societies retrieved successfully",
             pendingRows := rows }, st1)

/-- `updateSocietyApproval` (authController.js lines 371-426); note the
source validates `status` before looking at the token. -/
def updateSocietyApproval (env : Env) (societyId status reason : String)
    (token : Option String) (ip ua : String) (st0 : St) : ApiResponse × St :=
  if status ≠ "approved" ∧ status ≠ "rejected" then
    (resp 400 "Invalid status" "Status must be either \"approved\" or \"rejected\"", st0)
  else
    match token with
    | none => (resp 401 "Unauthorized" "Access token required", st0)
    | some t =>
      match env.jwtVerify t with
      | none =>
        (resp 500 "Internal server error"
          "An error occurred while updating society approval", st0)
      | some decoded =>
        if decoded.role ≠ "developer" then
          (resp 403 "Forbidden" "Access denied", st0)
        else
          match runStmt env st0 (.updSocietyStatus status societyId env.now) with
          | .err st =>
            (resp 500 "Internal server error"
              "An error occurred while updating society approval", st)
          | .ok _ st1 =>
            let st2 := logAuditTrail env (some decoded.userId) (some societyId)
              "SOCIETY_APPROVAL_UPDATE" "societies" (some societyId) none
              (some [("status", status), ("reason", reason)]) ip ua st1
            ({ status := 200, error := none,
               message := "Society " ++ status ++ " successfully",
               body := [("societyId", societyId), ("status", status)] }, st2)

/-! Concrete fixtures used by witnesses and counterexamples. -/

/-- A uuidv4 supply for concrete runs. -/
def idsW : Nat → String := fun n => "u" ++ toString n

/-- Concrete failure-free environment. -/
def envW : Env :=
  { ids := idsW, bcryptHash := fun p => "h" ++ p,
    bcryptCompare := fun p h => h == "h" ++ p,
    jwtSign := fun c => "tok-" ++ c.role,
    jwtVerify := fun t => if t = "dev" then some ⟨"d1", "d@x", "developer", none⟩
      else if t = "adm" then some ⟨"a1", "a@x", "society_admin", some "s1"⟩ else none,
    failAt := fun _ => false, now := 7 }

def fileCert : FilePart := ⟨"cert.png", "/up/cert.png", 10, "image/png"⟩

def fileBylaws : FilePart := ⟨"bylaws.pdf", "/up/bylaws.pdf", 20, "application/pdf"⟩

/-- Certificate and bylaws attached, no additional documents. -/
def regFilesFull : RegFiles := ⟨some fileCert, some fileBylaws, []⟩

/-- A fully valid registration request. -/
def reqAlpha : RegReq :=
  ⟨"Alpha", "RC1", "credit", "2020-01-01", "addr", "Ada", "a@x", "1", "pw",
   some regFilesFull, "ip", "ua"⟩

def emptyDB : DB := ⟨[], [], [], []⟩

/-- Execution state whose pool holds a single idle connection. -/
def stOneConn : St := ⟨emptyDB, [none], 0, 0⟩

/-- An active developer user. -/
def userDev : UserRow := ⟨"d1", "d@x", "hpw", "Dev", "3", "developer", none, "active"⟩

/-- Store holding only the developer `userDev`. -/
def dbDev : DB := ⟨[], [userDev], [], []⟩

/-- One-connection state over `dbDev`. -/
def stDev : St := ⟨dbDev, [none], 0, 0⟩

/-- An approved society. -/
def socApproved : SocietyRow := ⟨"s2", "Gamma", "RC9", "credit", "2018-01-01", "g-addr", "approved", 0⟩

/-- The active admin of the approved society `socApproved`. -/
def userAdm2 : UserRow := ⟨"a2", "adm2@x", "hpw", "Ann", "4", "society_admin", some "s2", "active"⟩

/-- Store holding the approved society and its admin. -/
def dbApproved : DB := ⟨[socApproved], [userAdm2], [], []⟩

/-- One-connection state over `dbApproved`. -/
def stApproved : St := ⟨dbApproved, [none], 0, 0⟩

/-- An already-registered society holding registration number `RC1`. -/
def socRC1 : SocietyRow := ⟨"s0", "Beta", "RC1", "consumer", "2019-01-01", "b-addr", "pending", 0⟩

/-- An active society-admin user owned by `socRC1` (which is not approved). -/
def userAdm : UserRow := ⟨"a1", "adm@x", "hpw", "Amy", "2", "society_admin", some "s0", "active"⟩

/-- Store holding the pending society `socRC1` and its admin. -/
def dbAdm : DB := ⟨[socRC1], [userAdm], [], []⟩

/-- One-connection state over `dbAdm`. -/
def stAdm : St := ⟨dbAdm, [none], 0, 0⟩

/-- Store holding the pending society `socRC1` together with the developer
user `userDev` (the approving actor, so the audit rows' user_id foreign
key is satisfiable). -/
def dbC7 : DB := ⟨[socRC1], [userDev], [], []⟩

/-- One-connection state over `dbC7`. -/
def stC7 : St := ⟨dbC7, [none], 0, 0⟩

/-- Store already containing a society with registration number `RC1`. -/
def dbWithRC1 : DB := ⟨[socRC1], [], [], []⟩

/-- One-connection state over `dbWithRC1`. -/
def stRC1 : St := ⟨dbWithRC1, [none], 0, 0⟩

/-- `reqAlpha` with both required files absent. -/
def reqNoFiles : RegReq := { reqAlpha with files := none }

/-- `reqAlpha` with an empty (falsy) password field. -/
def reqNoPassword : RegReq := { reqAlpha with password := "" }

/-! Theorems.  The first group are step lemmas about the persistence
gateway on a pool of idle (autocommit) connections: in that normal form a
pool shaped `List.replicate (n+1) none` is stationary under statement
execution, every successful write applies directly to the store, and every
thrown statement leaves the store untouched. -/

/-- A read on an all-idle pool returns the store unchanged and keeps the
pool in the same normal form. -/
theorem runRead_clean {α : Type} (env : Env) (st : St) (f : DB → α) (n : Nat)
    (hp : st.pool = List.replicate (n + 1) none)
    (hf : env.failAt st.qidx = false) :
    runRead env st f =
      .ok (f st.db) { st with pool := List.replicate (n + 1) none, qidx := st.qidx + 1 } := by
  obtain ⟨db, pool, qidx, uidx⟩ := st
  simp only [] at hp hf
  subst hp
  conv_lhs => rw [List.replicate_succ]
  simp only [runRead, takeConn, hf, Bool.false_eq_true, if_false]
  rw [List.replicate_succ']

/-- A failing read on an all-idle pool leaves the store untouched. -/
theorem runRead_clean_err {α : Type} (env : Env) (st : St) (f : DB → α) (n : Nat)
    (hp : st.pool = List.replicate (n + 1) none)
    (hf : env.failAt st.qidx = true) :
    runRead env st f =
      .err { st with pool := List.replicate (n + 1) none, qidx := st.qidx + 1 } := by
  obtain ⟨db, pool, qidx, uidx⟩ := st
  simp only [] at hp hf
  subst hp
  conv_lhs => rw [List.replicate_succ]
  simp only [runRead, takeConn, hf, if_true]
  rw [List.replicate_succ']

/-- A write that neither hits an injected error nor violates a foreign key
applies its statement to the store directly on an all-idle pool. -/
theorem runStmt_clean (env : Env) (st : St) (s : Stmt) (n : Nat)
    (hp : st.pool = List.replicate (n + 1) none)
    (hf : env.failAt st.qidx = false)
    (hok : fkOk st.db s = true) :
    runStmt env st s =
      .ok () { st with db := applyStmt st.db s,
                       pool := List.replicate (n + 1) none, qidx := st.qidx + 1 } := by
  obtain ⟨db, pool, qidx, uidx⟩ := st
  simp only [] at hp hf hok
  subst hp
  conv_lhs => rw [List.replicate_succ]
  simp only [runStmt, takeConn, hf, hok, Bool.not_true, Bool.or_false, Bool.false_eq_true,
    if_false]
  rw [List.replicate_succ']

/-- A write that hits an injected error or violates a foreign key throws
and leaves the store untouched on an all-idle pool. -/
theorem runStmt_clean_err (env : Env) (st : St) (s : Stmt) (n : Nat)
    (hp : st.pool = List.replicate (n + 1) none)
    (hf : env.failAt st.qidx = true ∨ fkOk st.db s = false) :
    runStmt env st s =
      .err { st with pool := List.replicate (n + 1) none, qidx := st.qidx + 1 } := by
  obtain ⟨db, pool, qidx, uidx⟩ := st
  simp only [] at hp hf
  subst hp
  conv_lhs => rw [List.replicate_succ]
  rcases hf with hf | hf <;>
    simp only [runStmt, takeConn, hf, Bool.not_false, Bool.true_or, Bool.or_true, if_true] <;>
    rw [List.replicate_succ']

/-- `START TRANSACTION` issued through the pooled `query` always throws,
leaving the store untouched and the all-idle pool in shape. -/
theorem runStartTxn_err (env : Env) (st : St) (n : Nat)
    (hp : st.pool = List.replicate (n + 1) none) :
    runStartTxn env st =
      .err { st with pool := List.replicate (n + 1) none, qidx := st.qidx + 1 } := by
  obtain ⟨db, pool, qidx, uidx⟩ := st
  simp only [] at hp
  subst hp
  conv_lhs => rw [List.replicate_succ]
  simp only [runStartTxn, takeConn]
  rw [List.replicate_succ']

/-- The audit recorder on an all-idle pool, when its insert neither hits
an injected error nor violates a foreign key: it appends exactly one row
to `audit_logs`, touching no other table. -/
theorem logAuditTrail_clean_ok (env : Env) (userId societyId : Option String)
    (action tableName : String) (recordId : Option String)
    (oldValues newValues : Option (List (String × String)))
    (ip ua : String) (st : St) (n : Nat)
    (hp : st.pool = List.replicate (n + 1) none)
    (hf : env.failAt st.qidx = false)
    (hok : fkOk st.db (.insAudit ⟨env.ids st.uidx, userId, societyId, action, tableName,
      recordId, oldValues, newValues, ip, ua⟩) = true) :
    logAuditTrail env userId societyId action tableName recordId oldValues newValues ip ua st =
      { st with
        db := { st.db with audit_logs := st.db.audit_logs ++
          [⟨env.ids st.uidx, userId, societyId, action, tableName, recordId,
            oldValues, newValues, ip, ua⟩] },
        pool := List.replicate (n + 1) none,
        qidx := st.qidx + 1, uidx := st.uidx + 1 } := by
  rw [logAuditTrail, runStmt_clean env { st with uidx := st.uidx + 1 } _ n hp hf hok]
  simp [applyStmt]

/-- The audit recorder on an all-idle pool, when its insert throws (an
injected error or a foreign-key violation): the error is swallowed and no
table changes at all. -/
theorem logAuditTrail_clean_skip (env : Env) (userId societyId : Option String)
    (action tableName : String) (recordId : Option String)
    (oldValues newValues : Option (List (String × String)))
    (ip ua : String) (st : St) (n : Nat)
    (hp : st.pool = List.replicate (n + 1) none)
    (hf : env.failAt st.qidx = true ∨
      fkOk st.db (.insAudit ⟨env.ids st.uidx, userId, societyId, action, tableName,
        recordId, oldValues, newValues, ip, ua⟩) = false) :
    logAuditTrail env userId societyId action tableName recordId oldValues newValues ip ua st =
      { st with pool := List.replicate (n + 1) none,
                qidx := st.qidx + 1, uidx := st.uidx + 1 } := by
  rw [logAuditTrail, runStmt_clean_err env { st with uidx := st.uidx + 1 } _ n hp hf]

/-- The audit recorder on an all-idle pool, in general: the row is
appended exactly when its insert neither hits an injected error nor
violates a foreign key; otherwise the swallowed error leaves every table
unchanged. -/
theorem logAuditTrail_clean (env : Env) (userId societyId : Option String)
    (action tableName : String) (recordId : Option String)
    (oldValues newValues : Option (List (String × String)))
    (ip ua : String) (st : St) (n : Nat)
    (hp : st.pool = List.replicate (n + 1) none) :
    logAuditTrail env userId societyId action tableName recordId oldValues newValues ip ua st =
      { st with
        db := if env.failAt st.qidx ||
            !(fkOk st.db (.insAudit ⟨env.ids st.uidx, userId, societyId, action, tableName,
              recordId, oldValues, newValues, ip, ua⟩)) then st.db
          else { st.db with audit_logs := st.db.audit_logs ++
            [⟨env.ids st.uidx, userId, societyId, action, tableName, recordId,
              oldValues, newValues, ip, ua⟩] },
        pool := List.replicate (n + 1) none,
        qidx := st.qidx + 1, uidx := st.uidx + 1 } := by
  by_cases hc : (env.failAt st.qidx ||
      !(fkOk st.db (.insAudit ⟨env.ids st.uidx, userId, societyId, action, tableName,
        recordId, oldValues, newValues, ip, ua⟩))) = true
  · have hc2 : env.failAt st.qidx = true ∨
        fkOk st.db (.insAudit ⟨env.ids st.uidx, userId, societyId, action, tableName,
          recordId, oldValues, newValues, ip, ua⟩) = false := by simpa using hc
    rw [logAuditTrail_clean_skip env _ _ _ _ _ _ _ _ _ _ n hp hc2]
    simp [hc]
  · have hc2 : env.failAt st.qidx = false ∧
        fkOk st.db (.insAudit ⟨env.ids st.uidx, userId, societyId, action, tableName,
          recordId, oldValues, newValues, ip, ua⟩) = true := by simpa using hc
    rw [logAuditTrail_clean_ok env _ _ _ _ _ _ _ _ _ _ n hp hc2.1 hc2.2]
    have hcf : (env.failAt st.qidx ||
        !(fkOk st.db (.insAudit ⟨env.ids st.uidx, userId, societyId, action, tableName,
          recordId, oldValues, newValues, ip, ua⟩))) = false := by
      simp [hc2.1, hc2.2]
    simp [hcf]

/-- A registration request that passes every validation (fields, duplicate
checks, both required files) reaches `START TRANSACTION`, which always
throws through the pooled `query`, so — whatever the injected-error
pattern — the handler answers the 500 registration error and the store is
entirely unchanged: nothing is ever inserted. -/
theorem societyRegister_validated_500 (env : Env) (req : RegReq) (st : St) (n : Nat)
    (fs : RegFiles) (fc fb : FilePart)
    (hp : st.pool = List.replicate (n + 1) none)
    (hm : regFieldsMissing req = false)
    (hfiles : req.files = some fs) (hfc : fs.registrationCertificate = some fc)
    (hfb : fs.bylaws = some fb)
    (hdup : findSocietyByRegnum st.db req.registrationNumber = [])
    (hem : findUserByEmail st.db req.adminEmail = []) :
    (societyRegister env req st).1 = regErrorResp ∧
    (societyRegister env req st).2.db = st.db := by
  rw [societyRegister]
  simp only [hm, Bool.false_eq_true, if_false]
  by_cases h0 : env.failAt st.qidx = true
  · rw [runRead_clean_err env st _ n hp h0]
    exact ⟨rfl, rfl⟩
  · rw [runRead_clean env st _ n hp (by simpa using h0)]
    simp only [hdup, ne_eq, not_true_eq_false, if_false, reduceIte]
    by_cases h1 : env.failAt (st.qidx + 1) = true
    · rw [runRead_clean_err env
        { st with pool := List.replicate (n + 1) none, qidx := st.qidx + 1 } _ n rfl h1]
      exact ⟨rfl, rfl⟩
    · rw [runRead_clean env
        { st with pool := List.replicate (n + 1) none, qidx := st.qidx + 1 } _ n rfl
        (by simpa using h1)]
      simp only [hem, ne_eq, not_true_eq_false, if_false, reduceIte, hfiles, hfc, hfb]
      rw [runStartTxn_err env
        { st with pool := List.replicate (n + 1) none, qidx := st.qidx + 1 + 1 } _ rfl]
      simp

/-- Claim C1: for every registration request that has passed input
validation, the registration unit fails at its very first statement —
`START TRANSACTION` cannot be prepared through `pool.execute` — before any
insert is issued, the handler answers 500, and the store is exactly as
before: no society, user, or document row created by the request survives
(there is never any partial state to roll back). -/
theorem C1_failed_registration_writes_nothing (env : Env) (req : RegReq) (st : St) (n : Nat)
    (fs : RegFiles) (fc fb : FilePart)
    (hp : st.pool = List.replicate (n + 1) none)
    (hm : regFieldsMissing req = false)
    (hfiles : req.files = some fs) (hfc : fs.registrationCertificate = some fc)
    (hfb : fs.bylaws = some fb)
    (hdup : findSocietyByRegnum st.db req.registrationNumber = [])
    (hem : findUserByEmail st.db req.adminEmail = []) :
    (societyRegister env req st).1 = regErrorResp ∧
    (societyRegister env req st).2.db = st.db :=
  societyRegister_validated_500 env req st n fs fc fb hp hm hfiles hfc hfb hdup hem

/-- Claim C1 witness: the concrete valid request `reqAlpha` over the empty
one-connection store answers 500 with the store unchanged. -/
theorem C1_witness :
    (societyRegister envW reqAlpha stOneConn).1 = regErrorResp ∧
    (societyRegister envW reqAlpha stOneConn).2.db = stOneConn.db :=
  C1_failed_registration_writes_nothing envW reqAlpha stOneConn 0
    regFilesFull fileCert fileBylaws (by decide) (by decide) (by decide)
    (by decide) (by decide) (by decide) (by decide)

/-- Claim C6, evaluated at the failing input: the spec's own canonical
success scenario — a fully valid registration request with certificate and
bylaws attached over the empty store — does not return 201 creating the
claimed rows; it answers 500 with the store untouched, because the
`START TRANSACTION` issued through `pool.execute` is rejected by MySQL's
prepared-statement protocol before any insert runs.  No registration can
ever succeed, so the 201 success shape is unreachable. -/
theorem C6_valid_registration_answers_500 :
    (societyRegister envW reqAlpha stOneConn).1.status = 500 ∧
    (societyRegister envW reqAlpha stOneConn).2.db = emptyDB := by
  decide

/-- Claim C2 counterexample: a registration request missing both required
files, whose registration number already exists, is rejected 409 (conflict),
not 400 as the claim states — the duplicate check runs before the file
check. -/
theorem C2_counterexample_duplicate_beats_missing_files :
    (societyRegister envW reqNoFiles stRC1).1.status = 409 ∧
    ¬ (societyRegister envW reqNoFiles stRC1).1.status = 400 := by
  decide

/-- Claim C5 counterexample: a registration attempt whose registration
number already exists but whose password field is empty is rejected 400
(missing fields), not 409 — the field-presence check runs before the
duplicate check. -/
theorem C5_counterexample_missing_field_beats_duplicate :
    (societyRegister envW reqNoPassword stRC1).1.status = 400 ∧
    ¬ (societyRegister envW reqNoPassword stRC1).1.status = 409 := by
  decide

/-- Claim C4: a society-login attempt whose email identifies an active
society_admin user whose owning society is not approved is answered with
the distinct 403 "Society not approved" error and touches no table; the
request's password and the bcrypt comparison are fully unconstrained, so
the same response is produced for a correct and for an incorrect
password. -/
theorem C4_unapproved_society_login_is_403 (env : Env) (req : LoginReq) (st : St)
    (n : Nat) (u : UserRow) (s : SocietyRow) (rest : List (UserRow × SocietyRow))
    (hp : st.pool = List.replicate (n + 1) none)
    (hf : env.failAt st.qidx = false)
    (he : req.email ≠ "") (hw : req.password ≠ "")
    (hl : societyLoginLookup st.db req.email = (u, s) :: rest)
    (hs : s.status ≠ "approved") :
    (societyLogin env req st).1 =
      resp 403 "Society not approved" "Your society registration is still pending approval" ∧
    (societyLogin env req st).2.db = st.db := by
  rw [societyLogin, runRead_clean env st _ n hp hf]
  simp [he, hw, hl, hs]

/-- Claim C4 witness: the concrete pending society `socRC1` with admin
`userAdm` rejects the login with 403 and leaves the store unchanged. -/
theorem C4_witness :
    (societyLogin envW ⟨"adm@x", "pw", "ip", "ua"⟩ stAdm).1 =
      resp 403 "Society not approved" "Your society registration is still pending approval" ∧
    (societyLogin envW ⟨"adm@x", "pw", "ip", "ua"⟩ stAdm).2.db = stAdm.db :=
  C4_unapproved_society_login_is_403 envW ⟨"adm@x", "pw", "ip", "ua"⟩ stAdm 0 userAdm socRC1 []
    (by decide) (by decide) (by decide) (by decide) (by decide) (by decide)

/-- Claim C5 as amended: a registration attempt whose registration number
already exists is rejected 409 with the store unchanged, provided all
required textual fields are present (an attempt with a missing field is
rejected 400 by the earlier field check, still with no rows written) and
the duplicate-check query itself does not throw. -/
theorem C5_duplicate_regnum_conflict (env : Env) (req : RegReq) (st : St) (n : Nat)
    (hp : st.pool = List.replicate (n + 1) none)
    (hf : env.failAt st.qidx = false)
    (hfields : regFieldsMissing req = false)
    (hdup : findSocietyByRegnum st.db req.registrationNumber ≠ []) :
    (societyRegister env req st).1 =
      resp 409 "Registration number already exists"
        "A society with this registration number is already registered" ∧
    (societyRegister env req st).2.db = st.db := by
  rw [societyRegister]
  simp only [hfields, Bool.false_eq_true, if_false]
  rw [runRead_clean env st _ n hp hf]
  simp [hdup]

/-- Claim C5 witness: re-registering registration number `RC1` over the
store `dbWithRC1` is answered 409 and writes nothing. -/
theorem C5_witness :
    (societyRegister envW reqAlpha stRC1).1 =
      resp 409 "Registration number already exists"
        "A society with this registration number is already registered" ∧
    (societyRegister envW reqAlpha stRC1).2.db = stRC1.db :=
  C5_duplicate_regnum_conflict envW reqAlpha stRC1 0
    (by decide) (by decide) (by decide) (by decide)

/-- Claim C2 as amended: a registration request missing the certificate or
the bylaws file writes no row at all; it is answered 400 when the
registration number and admin email are not already taken, and 409
otherwise (the duplicate checks run first).  The two duplicate-check
queries are assumed not to throw. -/
theorem C2_missing_files_rejected (env : Env) (req : RegReq) (st : St) (n : Nat)
    (hp : st.pool = List.replicate (n + 1) none)
    (hf0 : env.failAt st.qidx = false)
    (hf1 : env.failAt (st.qidx + 1) = false)
    (hfiles : req.files = none ∨
      ∃ fs, req.files = some fs ∧ (fs.registrationCertificate = none ∨ fs.bylaws = none)) :
    (societyRegister env req st).2.db = st.db ∧
    ((societyRegister env req st).1.status = 400 ∨ (societyRegister env req st).1.status = 409) ∧
    (findSocietyByRegnum st.db req.registrationNumber = [] →
      findUserByEmail st.db req.adminEmail = [] →
      (societyRegister env req st).1.status = 400) := by
  by_cases hm : regFieldsMissing req = true
  · simp [societyRegister, hm, resp]
  · rw [societyRegister]
    simp only [hm, Bool.false_eq_true, if_false]
    rw [runRead_clean env st _ n hp hf0]
    by_cases hdup : findSocietyByRegnum st.db req.registrationNumber = []
    · simp only [hdup, ne_eq, not_true_eq_false, if_false, reduceIte]
      rw [runRead_clean env
        { st with pool := List.replicate (n + 1) none, qidx := st.qidx + 1 } _ n rfl hf1]
      by_cases hem : findUserByEmail st.db req.adminEmail = []
      · rcases hfiles with h | ⟨fs, hfs, hmiss⟩
        · simp [h, hem, resp]
        · rcases hmiss with h | h <;> simp [hfs, hem, h, resp]
      · simp [hem, resp]
    · simp [hdup, resp]

/-- Claim C2 witness: a file-less registration over the empty store is
rejected 400 with nothing written. -/
theorem C2_witness :
    (societyRegister envW reqNoFiles stOneConn).2.db = stOneConn.db ∧
    ((societyRegister envW reqNoFiles stOneConn).1.status = 400 ∨
      (societyRegister envW reqNoFiles stOneConn).1.status = 409) ∧
    (findSocietyByRegnum stOneConn.db reqNoFiles.registrationNumber = [] →
      findUserByEmail stOneConn.db reqNoFiles.adminEmail = [] →
      (societyRegister envW reqNoFiles stOneConn).1.status = 400) :=
  C2_missing_files_rejected envW reqNoFiles stOneConn 0
    (by decide) (by decide) (by decide) (Or.inl (by decide))

/-- Claim C3 counterexample: an approval-update request carrying no token
but an invalid decision value is rejected 400, not 401 — the handler
validates `status` before looking for the token. -/
theorem C3_counterexample_invalid_status_beats_missing_token :
    (updateSocietyApproval envW "s0" "banana" "" none "ip" "ua" stOneConn).1.status = 400 ∧
    ¬ (updateSocietyApproval envW "s0" "banana" "" none "ip" "ua" stOneConn).1.status = 401 := by
  decide

/-- Claim C3 as amended: for the pending-societies list, and for
approval-update requests whose decision value is valid (`approved` or
`rejected`), a request with no token is rejected 401 and a request whose
token decodes to a non-developer role is rejected 403; in all four cases
the returned state is exactly the input state, so no society state is read
(the statement counter is unchanged) or modified.  An approval-update
request with an invalid decision value is rejected 400 before the token is
examined, which is the one deviation from the claim as stated. -/
theorem C3_developer_gate (env : Env) (st : St) (tok : String) (c : TokenClaims)
    (sid status reason ip ua : String)
    (hv : env.jwtVerify tok = some c) (hr : c.role ≠ "developer")
    (hs : status = "approved" ∨ status = "rejected") :
    getPendingSocieties env none st = (resp 401 "Unauthorized" "Access token required", st) ∧
    getPendingSocieties env (some tok) st = (resp 403 "Forbidden" "Access denied", st) ∧
    updateSocietyApproval env sid status reason none ip ua st =
      (resp 401 "Unauthorized" "Access token required", st) ∧
    updateSocietyApproval env sid status reason (some tok) ip ua st =
      (resp 403 "Forbidden" "Access denied", st) := by
  have hsv : ¬(status ≠ "approved" ∧ status ≠ "rejected") := by
    rcases hs with h | h <;> simp [h]
  refine ⟨rfl, ?_, ?_, ?_⟩
  · simp [getPendingSocieties, hv, hr]
  · simp [updateSocietyApproval, hsv]
  · simp [updateSocietyApproval, hsv, hv, hr]

/-- Claim C3 witness: over `stAdm`, a society-admin token (`"adm"`) and a
missing token are rejected 403 and 401 respectively on both endpoints,
with the state untouched. -/
theorem C3_witness :
    getPendingSocieties envW none stAdm = (resp 401 "Unauthorized" "Access token required", stAdm) ∧
    getPendingSocieties envW (some "adm") stAdm = (resp 403 "Forbidden" "Access denied", stAdm) ∧
    updateSocietyApproval envW "s0" "approved" "" none "ip" "ua" stAdm =
      (resp 401 "Unauthorized" "Access token required", stAdm) ∧
    updateSocietyApproval envW "s0" "approved" "" (some "adm") "ip" "ua" stAdm =
      (resp 403 "Forbidden" "Access denied", stAdm) :=
  C3_developer_gate envW stAdm "adm" ⟨"a1", "a@x", "society_admin", some "s1"⟩
    "s0" "approved" "" "ip" "ua" (by decide) (by decide) (Or.inl rfl)

/-- Updating the status of a society id that no row carries is the
identity on the societies table. -/
theorem map_updateStatus_miss (l : List SocietyRow) (sid stt : String) (now : Nat)
    (h : ∀ s ∈ l, s.id ≠ sid) :
    l.map (fun s => if s.id = sid then { s with status := stt, updated_at := now } else s) = l := by
  induction l with
  | nil => rfl
  | cons a t ih =>
    have ha : a.id ≠ sid := h a (List.mem_cons_self a t)
    simp only [List.map_cons, ha, if_false, List.cons.injEq, true_and, reduceIte]
    exact ih (fun s hs => h s (List.mem_cons_of_mem a hs))

/-- Characterization of one approval-update call by an authenticated
developer with a valid decision whose UPDATE statement succeeds: it
answers 200 with the requested status, maps the status update over the
societies table, and appends one audit row unless the audit insert throws
(an injected error, or a foreign-key violation of the audit row's
references to the actor user and the target society). -/
theorem updateSocietyApproval_dev_ok (env : Env) (st : St) (n : Nat)
    (sid status reason tok ip ua : String) (c : TokenClaims)
    (hp : st.pool = List.replicate (n + 1) none)
    (hf0 : env.failAt st.qidx = false)
    (hv : env.jwtVerify tok = some c) (hr : c.role = "developer")
    (hs : ¬(status ≠ "approved" ∧ status ≠ "rejected")) :
    updateSocietyApproval env sid status reason (some tok) ip ua st =
      ({ status := 200, error := none, message := "Society " ++ status ++ " successfully",
         body := [("societyId", sid), ("status", status)] },
       { st with
         db :=
           if env.failAt (st.qidx + 1) ||
               !(fkOk (applyStmt st.db (.updSocietyStatus status sid env.now))
                 (.insAudit ⟨env.ids st.uidx, some c.userId, some sid,
                   "SOCIETY_APPROVAL_UPDATE", "societies", some sid, none,
                   some [("status", status), ("reason", reason)], ip, ua⟩)) then
             applyStmt st.db (.updSocietyStatus status sid env.now)
           else
             { applyStmt st.db (.updSocietyStatus status sid env.now) with
               audit_logs := st.db.audit_logs ++
                 [⟨env.ids st.uidx, some c.userId, some sid, "SOCIETY_APPROVAL_UPDATE",
                   "societies", some sid, none, some [("status", status), ("reason", reason)],
                   ip, ua⟩] },
         pool := List.replicate (n + 1) none, qidx := st.qidx + 2, uidx := st.uidx + 1 }) := by
  rw [updateSocietyApproval]
  simp only [hs, if_false, hv, hr, ne_eq, not_true_eq_false, reduceIte]
  rw [runStmt_clean env st (.updSocietyStatus status sid env.now) n hp hf0 rfl]
  simp only []
  rw [logAuditTrail_clean env _ _ _ _ _ _ _ _ _ _ n rfl]
  simp [applyStmt]

/-- Commuting the status-update map with the filter on the updated id:
the surviving rows are exactly the old matching rows, each updated. -/
theorem filter_map_updateStatus (l : List SocietyRow) (sid stt : String) (now : Nat) :
    (l.map (fun s => if s.id = sid then { s with status := stt, updated_at := now } else s)).filter
        (fun s => s.id = sid) =
      (l.filter (fun s => s.id = sid)).map
        (fun s => { s with status := stt, updated_at := now }) := by
  induction l with
  | nil => rfl
  | cons a t ih =>
    by_cases ha : a.id = sid
    · simp [ha, ih]
    · simp [ha, ih]

/-- The status-update map is idempotent on the societies table. -/
theorem map_updateStatus_idem (l : List SocietyRow) (sid stt : String) (now : Nat) :
    ((l.map (fun s => if s.id = sid then { s with status := stt, updated_at := now } else s)).map
        (fun s => if s.id = sid then { s with status := stt, updated_at := now } else s)) =
      l.map (fun s => if s.id = sid then { s with status := stt, updated_at := now } else s) := by
  rw [List.map_map]
  have hcomp :
      ((fun s : SocietyRow => if s.id = sid then { s with status := stt, updated_at := now } else s) ∘
        fun s : SocietyRow => if s.id = sid then { s with status := stt, updated_at := now } else s) =
      fun s : SocietyRow => if s.id = sid then { s with status := stt, updated_at := now } else s := by
    funext s
    by_cases hx : s.id = sid <;> simp [Function.comp, hx]
  rw [hcomp]

/-- The status-update map never changes a row's id, so membership tests
on ids are unaffected by it. -/
theorem any_id_map_updateStatus (l : List SocietyRow) (sid stt : String) (now : Nat)
    (tid : String) :
    (l.map (fun s => if s.id = sid then { s with status := stt, updated_at := now } else s)).any
        (fun s => s.id = tid) =
      l.any (fun s => s.id = tid) := by
  induction l with
  | nil => rfl
  | cons a t ih =>
    by_cases ha : a.id = sid <;> simp [ha, ih]

/-- One successful approval-update step by a developer whose own user row
exists and whose target id names an existing society: it answers 200 and
the resulting state updates the societies table in place, leaves users and
documents alone, and appends exactly one audit row. -/
theorem updateSocietyApproval_step (env : Env) (st : St) (n : Nat)
    (sid status reason tok ip ua : String) (c : TokenClaims)
    (hp : st.pool = List.replicate (n + 1) none)
    (hf0 : env.failAt st.qidx = false) (hf1 : env.failAt (st.qidx + 1) = false)
    (hv : env.jwtVerify tok = some c) (hr : c.role = "developer")
    (hs : ¬(status ≠ "approved" ∧ status ≠ "rejected"))
    (hu2 : st.db.users.any (fun u => u.id = c.userId) = true)
    (hsoc2 : st.db.societies.any (fun s => s.id = sid) = true) :
    ∃ st2 : St,
      updateSocietyApproval env sid status reason (some tok) ip ua st =
        ({ status := 200, error := none, message := "Society " ++ status ++ " successfully",
           body := [("societyId", sid), ("status", status)] }, st2) ∧
      st2.db.societies = st.db.societies.map
        (fun s => if s.id = sid then { s with status := status, updated_at := env.now } else s) ∧
      st2.db.users = st.db.users ∧
      st2.db.society_documents = st.db.society_documents ∧
      st2.db.audit_logs = st.db.audit_logs ++
        [⟨env.ids st.uidx, some c.userId, some sid, "SOCIETY_APPROVAL_UPDATE", "societies",
          some sid, none, some [("status", status), ("reason", reason)], ip, ua⟩] ∧
      st2.pool = List.replicate (n + 1) none ∧
      st2.qidx = st.qidx + 2 ∧ st2.uidx = st.uidx + 1 := by
  have hok : fkOk (applyStmt st.db (.updSocietyStatus status sid env.now))
      (.insAudit ⟨env.ids st.uidx, some c.userId, some sid, "SOCIETY_APPROVAL_UPDATE",
        "societies", some sid, none, some [("status", status), ("reason", reason)],
        ip, ua⟩) = true := by
    simp only [fkOk, applyStmt, any_id_map_updateStatus, hu2, hsoc2, Bool.and_self]
  have hc : (env.failAt (st.qidx + 1) ||
      !(fkOk (applyStmt st.db (.updSocietyStatus status sid env.now))
        (.insAudit ⟨env.ids st.uidx, some c.userId, some sid, "SOCIETY_APPROVAL_UPDATE",
          "societies", some sid, none, some [("status", status), ("reason", reason)],
          ip, ua⟩))) = false := by
    simp [hf1, hok]
  have hnc : ¬ ((env.failAt (st.qidx + 1) ||
      !(fkOk (applyStmt st.db (.updSocietyStatus status sid env.now))
        (.insAudit ⟨env.ids st.uidx, some c.userId, some sid, "SOCIETY_APPROVAL_UPDATE",
          "societies", some sid, none, some [("status", status), ("reason", reason)],
          ip, ua⟩))) = true) := by
    simp [hc]
  rw [updateSocietyApproval_dev_ok env st n sid status reason tok ip ua c hp hf0 hv hr hs]
  refine ⟨_, rfl, ?_, ?_, ?_, ?_, rfl, rfl, rfl⟩ <;>
    rw [if_neg hnc] <;> simp [applyStmt]

/-- Claim C7: applying the developer approval update with decision
`approved` twice to the same society id is idempotent on the societies
table — afterwards there is exactly one society row with that id, its
status is `approved`, the table has no extra rows — while each of the two
applications appends its own audit entry (the developer's own user row is
present, so the audit rows' foreign keys are satisfied). -/
theorem C7_double_approval_idempotent (env : Env) (st : St) (n : Nat)
    (sid reason tok ip ua : String) (c : TokenClaims) (s0 : SocietyRow)
    (hp : st.pool = List.replicate (n + 1) none)
    (hf0 : env.failAt st.qidx = false) (hf1 : env.failAt (st.qidx + 1) = false)
    (hf2 : env.failAt (st.qidx + 2) = false) (hf3 : env.failAt (st.qidx + 3) = false)
    (hv : env.jwtVerify tok = some c) (hr : c.role = "developer")
    (hu : st.db.users.any (fun u => u.id = c.userId) = true)
    (hone : st.db.societies.filter (fun s => s.id = sid) = [s0]) :
    (updateSocietyApproval env sid "approved" reason (some tok) ip ua st).1.status = 200 ∧
    (updateSocietyApproval env sid "approved" reason (some tok) ip ua
      (updateSocietyApproval env sid "approved" reason (some tok) ip ua st).2).1.status = 200 ∧
    ((updateSocietyApproval env sid "approved" reason (some tok) ip ua
      (updateSocietyApproval env sid "approved" reason (some tok) ip ua st).2).2.db.societies.filter
        (fun s => s.id = sid)) =
      [{ s0 with status := "approved", updated_at := env.now }] ∧
    (updateSocietyApproval env sid "approved" reason (some tok) ip ua
      (updateSocietyApproval env sid "approved" reason (some tok) ip ua st).2).2.db.societies.length =
      st.db.societies.length ∧
    (updateSocietyApproval env sid "approved" reason (some tok) ip ua
      (updateSocietyApproval env sid "approved" reason (some tok) ip ua st).2).2.db.audit_logs.length =
      st.db.audit_logs.length + 2 := by
  have hsv : ¬(("approved" : String) ≠ "approved" ∧ ("approved" : String) ≠ "rejected") := by simp
  have hsoc : st.db.societies.any (fun s => s.id = sid) = true := by
    have hmem : s0 ∈ st.db.societies.filter (fun s => s.id = sid) := by
      rw [hone]; exact List.mem_singleton.mpr rfl
    exact List.any_eq_true.mpr
      ⟨s0, (List.mem_filter.mp hmem).1, (List.mem_filter.mp hmem).2⟩
  obtain ⟨stA, heqA, hsocA, husersA, hdocsA, haudA, hpoolA, hqA, _⟩ :=
    updateSocietyApproval_step env st n sid "approved" reason tok ip ua c hp hf0 hf1
      hv hr hsv hu hsoc
  obtain ⟨stB, heqB, hsocB, husersB, hdocsB, haudB, hpoolB, hqB, _⟩ :=
    updateSocietyApproval_step env stA n sid "approved" reason tok ip ua c hpoolA
      (by rw [hqA]; exact hf2) (by rw [hqA]; exact hf3) hv hr hsv
      (by rw [husersA]; exact hu)
      (by rw [hsocA, any_id_map_updateStatus]; exact hsoc)
  simp only [heqA, heqB]
  refine ⟨trivial, trivial, ?_, ?_, ?_⟩
  · rw [hsocB, hsocA, map_updateStatus_idem, filter_map_updateStatus, hone]
    rfl
  · rw [hsocB, hsocA]
    simp
  · rw [haudB, haudA]
    simp

/-- Claim C7 witness: approving society `s0` twice over `stC7` (which also
holds the approving developer's user row) gives 200 both times, keeps
exactly the one — now approved — society row, and writes two audit
entries. -/
theorem C7_witness :
    (updateSocietyApproval envW "s0" "approved" "" (some "dev") "ip" "ua" stC7).1.status = 200 ∧
    (updateSocietyApproval envW "s0" "approved" "" (some "dev") "ip" "ua"
      (updateSocietyApproval envW "s0" "approved" "" (some "dev") "ip" "ua" stC7).2).1.status = 200 ∧
    ((updateSocietyApproval envW "s0" "approved" "" (some "dev") "ip" "ua"
      (updateSocietyApproval envW "s0" "approved" "" (some "dev") "ip" "ua" stC7).2).2.db.societies.filter
        (fun s => s.id = "s0")) =
      [{ socRC1 with status := "approved", updated_at := envW.now }] ∧
    (updateSocietyApproval envW "s0" "approved" "" (some "dev") "ip" "ua"
      (updateSocietyApproval envW "s0" "approved" "" (some "dev") "ip" "ua" stC7).2).2.db.societies.length =
      stC7.db.societies.length ∧
    (updateSocietyApproval envW "s0" "approved" "" (some "dev") "ip" "ua"
      (updateSocietyApproval envW "s0" "approved" "" (some "dev") "ip" "ua" stC7).2).2.db.audit_logs.length =
      stC7.db.audit_logs.length + 2 :=
  C7_double_approval_idempotent envW stC7 0 "s0" "" "dev" "ip" "ua"
    ⟨"d1", "d@x", "developer", none⟩ socRC1 (by decide) (by decide) (by decide)
    (by decide) (by decide) (by decide) (by decide) (by decide) (by decide)

/-- Claim C9: for any two failing login attempts — one whose email matches
no eligible user, one whose password is wrong for an eligible user — the
responses are the identical generic 401, on both the developer and the
society login endpoint, so the response does not reveal which credential
was wrong. -/
theorem C9_auth_failures_indistinguishable
    (envA envB envC envD : Env) (rA rB rC rD : LoginReq) (stA stB stC stD : St)
    (nA nB nC nD : Nat) (u v : UserRow) (sv : SocietyRow)
    (restB : List UserRow) (restD : List (UserRow × SocietyRow))
    (hpA : stA.pool = List.replicate (nA + 1) none) (hfA : envA.failAt stA.qidx = false)
    (heA : rA.email ≠ "") (hwA : rA.password ≠ "")
    (hnoA : findDeveloper stA.db rA.email = [])
    (hpB : stB.pool = List.replicate (nB + 1) none) (hfB : envB.failAt stB.qidx = false)
    (heB : rB.email ≠ "") (hwB : rB.password ≠ "")
    (hyesB : findDeveloper stB.db rB.email = u :: restB)
    (hbadB : envB.bcryptCompare rB.password u.password = false)
    (hpC : stC.pool = List.replicate (nC + 1) none) (hfC : envC.failAt stC.qidx = false)
    (heC : rC.email ≠ "") (hwC : rC.password ≠ "")
    (hnoC : societyLoginLookup stC.db rC.email = [])
    (hpD : stD.pool = List.replicate (nD + 1) none) (hfD : envD.failAt stD.qidx = false)
    (heD : rD.email ≠ "") (hwD : rD.password ≠ "")
    (hyesD : societyLoginLookup stD.db rD.email = (v, sv) :: restD)
    (happD : sv.status = "approved")
    (hbadD : envD.bcryptCompare rD.password v.password = false) :
    (developerLogin envA rA stA).1 =
      resp 401 "Authentication failed" "Invalid email or password" ∧
    (developerLogin envB rB stB).1 =
      resp 401 "Authentication failed" "Invalid email or password" ∧
    (societyLogin envC rC stC).1 =
      resp 401 "Authentication failed" "Invalid email or password" ∧
    (societyLogin envD rD stD).1 =
      resp 401 "Authentication failed" "Invalid email or password" ∧
    (developerLogin envA rA stA).1 = (developerLogin envB rB stB).1 ∧
    (societyLogin envC rC stC).1 = (societyLogin envD rD stD).1 := by
  have hA : (developerLogin envA rA stA).1 =
      resp 401 "Authentication failed" "Invalid email or password" := by
    rw [developerLogin, runRead_clean envA stA _ nA hpA hfA]
    simp [heA, hwA, hnoA]
  have hB : (developerLogin envB rB stB).1 =
      resp 401 "Authentication failed" "Invalid email or password" := by
    rw [developerLogin, runRead_clean envB stB _ nB hpB hfB]
    simp [heB, hwB, hyesB, hbadB]
  have hC : (societyLogin envC rC stC).1 =
      resp 401 "Authentication failed" "Invalid email or password" := by
    rw [societyLogin, runRead_clean envC stC _ nC hpC hfC]
    simp [heC, hwC, hnoC]
  have hD : (societyLogin envD rD stD).1 =
      resp 401 "Authentication failed" "Invalid email or password" := by
    rw [societyLogin, runRead_clean envD stD _ nD hpD hfD]
    simp [heD, hwD, hyesD, happD, hbadD]
  exact ⟨hA, hB, hC, hD, hA.trans hB.symm, hC.trans hD.symm⟩

/-- Claim C9 witness: an unknown developer email, a known developer with a
wrong password, an unknown society-admin email, and a known admin of an
approved society with a wrong password all receive the identical generic
401 response. -/
theorem C9_witness :
    (developerLogin envW ⟨"ghost@x", "pw", "ip", "ua"⟩ stOneConn).1 =
      resp 401 "Authentication failed" "Invalid email or password" ∧
    (developerLogin envW ⟨"d@x", "wrong", "ip", "ua"⟩ stDev).1 =
      resp 401 "Authentication failed" "Invalid email or password" ∧
    (societyLogin envW ⟨"ghost@x", "pw", "ip", "ua"⟩ stOneConn).1 =
      resp 401 "Authentication failed" "Invalid email or password" ∧
    (societyLogin envW ⟨"adm2@x", "wrong", "ip", "ua"⟩ stApproved).1 =
      resp 401 "Authentication failed" "Invalid email or password" ∧
    (developerLogin envW ⟨"ghost@x", "pw", "ip", "ua"⟩ stOneConn).1 =
      (developerLogin envW ⟨"d@x", "wrong", "ip", "ua"⟩ stDev).1 ∧
    (societyLogin envW ⟨"ghost@x", "pw", "ip", "ua"⟩ stOneConn).1 =
      (societyLogin envW ⟨"adm2@x", "wrong", "ip", "ua"⟩ stApproved).1 :=
  C9_auth_failures_indistinguishable envW envW envW envW
    ⟨"ghost@x", "pw", "ip", "ua"⟩ ⟨"d@x", "wrong", "ip", "ua"⟩
    ⟨"ghost@x", "pw", "ip", "ua"⟩ ⟨"adm2@x", "wrong", "ip", "ua"⟩
    stOneConn stDev stOneConn stApproved 0 0 0 0
    userDev userAdm2 socApproved [] []
    (by decide) (by decide) (by decide) (by decide) (by decide)
    (by decide) (by decide) (by decide) (by decide) (by decide) (by decide)
    (by decide) (by decide) (by decide) (by decide) (by decide)
    (by decide) (by decide) (by decide) (by decide) (by decide) (by decide)
    (by decide)

/-- Characterization of a successful developer login whose user-lookup
query succeeds: it answers 200 with the token and user summary, and
appends one audit row unless the audit insert throws (the logged-in user's
own row satisfies the audit foreign key, and the audit's society reference
is NULL, so only an injected error can make the insert fail). -/
theorem developerLogin_ok (env : Env) (req : LoginReq) (st : St) (n : Nat)
    (u : UserRow) (rest : List UserRow)
    (hp : st.pool = List.replicate (n + 1) none)
    (hf0 : env.failAt st.qidx = false)
    (he : req.email ≠ "") (hw : req.password ≠ "")
    (hfind : findDeveloper st.db req.email = u :: rest)
    (hcmp : env.bcryptCompare req.password u.password = true)
    (hu : u ∈ st.db.users) :
    developerLogin env req st =
      ({ status := 200, error := none, message := "Login successful",
         body := [("token", env.jwtSign ⟨u.id, u.email, u.role, none⟩), ("id", u.id),
                  ("email", u.email), ("name", u.name), ("role", u.role)] },
       { st with
         db := if env.failAt (st.qidx + 1) then st.db else
           { st.db with audit_logs := st.db.audit_logs ++
             [⟨env.ids st.uidx, some u.id, none, "LOGIN", "users", some u.id, none,
               some [("email", u.email), ("role", u.role)], req.ip, req.userAgent⟩] },
         pool := List.replicate (n + 1) none, qidx := st.qidx + 2, uidx := st.uidx + 1 }) := by
  have hok : fkOk st.db (.insAudit ⟨env.ids st.uidx, some u.id, none, "LOGIN", "users",
      some u.id, none, some [("email", u.email), ("role", u.role)],
      req.ip, req.userAgent⟩) = true := by
    simp only [fkOk, Bool.and_true]
    exact List.any_eq_true.mpr ⟨u, hu, by simp⟩
  rw [developerLogin, runRead_clean env st _ n hp hf0]
  simp only [he, hw, or_self, or_false, false_or, if_false, hfind, hcmp, Bool.true_eq_false,
    reduceIte]
  rw [logAuditTrail_clean env _ _ _ _ _ _ _ _ _ _ n rfl]
  simp [hok]

/-- Characterization of a successful society login whose joined lookup
succeeds and whose society is approved: it answers 200 with the token and
the user/society summary, and appends one audit row unless the audit
insert throws (the logged-in user's row and the owning society row
satisfy the audit foreign keys, so only an injected error can make the
insert fail). -/
theorem societyLogin_ok (env : Env) (req : LoginReq) (st : St) (n : Nat)
    (u : UserRow) (soc : SocietyRow) (rest : List (UserRow × SocietyRow))
    (hp : st.pool = List.replicate (n + 1) none)
    (hf0 : env.failAt st.qidx = false)
    (he : req.email ≠ "") (hw : req.password ≠ "")
    (hl : societyLoginLookup st.db req.email = (u, soc) :: rest)
    (happ : soc.status = "approved")
    (hcmp : env.bcryptCompare req.password u.password = true)
    (hu : u ∈ st.db.users) (hsoc : soc ∈ st.db.societies) :
    societyLogin env req st =
      ({ status := 200, error := none, message := "Login successful",
         body := [("token", env.jwtSign ⟨u.id, u.email, u.role, some soc.id⟩),
                  ("societyId", soc.id), ("id", u.id), ("email", u.email),
                  ("name", u.name), ("role", u.role), ("societyName", soc.name)] },
       { st with
         db := if env.failAt (st.qidx + 1) then st.db else
           { st.db with audit_logs := st.db.audit_logs ++
             [⟨env.ids st.uidx, some u.id, some soc.id, "LOGIN", "users", some u.id, none,
               some [("email", u.email), ("role", u.role), ("society_id", soc.id)],
               req.ip, req.userAgent⟩] },
         pool := List.replicate (n + 1) none, qidx := st.qidx + 2, uidx := st.uidx + 1 }) := by
  have hok : fkOk st.db (.insAudit ⟨env.ids st.uidx, some u.id, some soc.id, "LOGIN", "users",
      some u.id, none, some [("email", u.email), ("role", u.role), ("society_id", soc.id)],
      req.ip, req.userAgent⟩) = true := by
    simp only [fkOk]
    refine Bool.and_eq_true_iff.mpr ⟨?_, ?_⟩
    · exact List.any_eq_true.mpr ⟨u, hu, by simp⟩
    · exact List.any_eq_true.mpr ⟨soc, hsoc, by simp⟩
  rw [societyLogin, runRead_clean env st _ n hp hf0]
  simp only [he, hw, or_self, or_false, false_or, if_false, hl, happ, hcmp,
    Bool.true_eq_false, reduceIte, ne_eq, not_true_eq_false]
  rw [logAuditTrail_clean env _ _ _ _ _ _ _ _ _ _ n rfl]
  simp [hok]

/-- Claim C8: for each business flow that invokes the audit recorder, a
failure of the audit write changes neither the flow's response nor its
effect on the societies, users and society_documents tables.  Developer
login, society login and approval update are run in an environment whose
injected failure predicate `g` is arbitrary at the audit write's
statement index and false elsewhere, against the failure-free run; the
registration flow, which can never reach its audit write (it dies at
`START TRANSACTION`), is compared under a completely arbitrary failure
predicate and still produces the identical 500 response and identical
tables (the untouched initial ones). -/
theorem C8_audit_failure_does_not_change_flows
    (envL : Env) (gL : Nat → Bool) (reqL : LoginReq) (stL : St) (nL : Nat)
    (uL : UserRow) (restL : List UserRow)
    (envS : Env) (gS : Nat → Bool) (reqS : LoginReq) (stS : St) (nS : Nat)
    (uS : UserRow) (socS : SocietyRow) (restS : List (UserRow × SocietyRow))
    (envU : Env) (gU : Nat → Bool) (stU : St) (nU : Nat)
    (sid status reason tok ip ua : String) (c : TokenClaims)
    (envR : Env) (gR : Nat → Bool) (reqR : RegReq) (stR : St) (nR : Nat)
    (fsR : RegFiles) (fcR fbR : FilePart)
    (hLall : ∀ i, envL.failAt i = false)
    (hLg : ∀ i, i ≠ stL.qidx + 1 → gL i = false)
    (hLp : stL.pool = List.replicate (nL + 1) none)
    (hLe : reqL.email ≠ "") (hLw : reqL.password ≠ "")
    (hLfind : findDeveloper stL.db reqL.email = uL :: restL)
    (hLcmp : envL.bcryptCompare reqL.password uL.password = true)
    (hLu : uL ∈ stL.db.users)
    (hSall : ∀ i, envS.failAt i = false)
    (hSg : ∀ i, i ≠ stS.qidx + 1 → gS i = false)
    (hSp : stS.pool = List.replicate (nS + 1) none)
    (hSe : reqS.email ≠ "") (hSw : reqS.password ≠ "")
    (hSl : societyLoginLookup stS.db reqS.email = (uS, socS) :: restS)
    (hSapp : socS.status = "approved")
    (hScmp : envS.bcryptCompare reqS.password uS.password = true)
    (hSu : uS ∈ stS.db.users) (hSsoc : socS ∈ stS.db.societies)
    (hUall : ∀ i, envU.failAt i = false)
    (hUg : ∀ i, i ≠ stU.qidx + 1 → gU i = false)
    (hUp : stU.pool = List.replicate (nU + 1) none)
    (hUv : envU.jwtVerify tok = some c) (hUr : c.role = "developer")
    (hUs : ¬(status ≠ "approved" ∧ status ≠ "rejected"))
    (hRp : stR.pool = List.replicate (nR + 1) none)
    (hRm : regFieldsMissing reqR = false)
    (hRfiles : reqR.files = some fsR) (hRfc : fsR.registrationCertificate = some fcR)
    (hRfb : fsR.bylaws = some fbR)
    (hRdup : findSocietyByRegnum stR.db reqR.registrationNumber = [])
    (hRem : findUserByEmail stR.db reqR.adminEmail = []) :
    (developerLogin { envL with failAt := gL } reqL stL).1 =
      (developerLogin envL reqL stL).1 ∧
    (developerLogin { envL with failAt := gL } reqL stL).2.db.societies =
      (developerLogin envL reqL stL).2.db.societies ∧
    (developerLogin { envL with failAt := gL } reqL stL).2.db.users =
      (developerLogin envL reqL stL).2.db.users ∧
    (developerLogin { envL with failAt := gL } reqL stL).2.db.society_documents =
      (developerLogin envL reqL stL).2.db.society_documents ∧
    (societyLogin { envS with failAt := gS } reqS stS).1 =
      (societyLogin envS reqS stS).1 ∧
    (societyLogin { envS with failAt := gS } reqS stS).2.db.societies =
      (societyLogin envS reqS stS).2.db.societies ∧
    (societyLogin { envS with failAt := gS } reqS stS).2.db.users =
      (societyLogin envS reqS stS).2.db.users ∧
    (societyLogin { envS with failAt := gS } reqS stS).2.db.society_documents =
      (societyLogin envS reqS stS).2.db.society_documents ∧
    (updateSocietyApproval { envU with failAt := gU } sid status reason (some tok) ip ua stU).1 =
      (updateSocietyApproval envU sid status reason (some tok) ip ua stU).1 ∧
    (updateSocietyApproval { envU with failAt := gU } sid status reason (some tok) ip ua stU).2.db.societies =
      (updateSocietyApproval envU sid status reason (some tok) ip ua stU).2.db.societies ∧
    (updateSocietyApproval { envU with failAt := gU } sid status reason (some tok) ip ua stU).2.db.users =
      (updateSocietyApproval envU sid status reason (some tok) ip ua stU).2.db.users ∧
    (updateSocietyApproval { envU with failAt := gU } sid status reason (some tok) ip ua stU).2.db.society_documents =
      (updateSocietyApproval envU sid status reason (some tok) ip ua stU).2.db.society_documents ∧
    (societyRegister { envR with failAt := gR } reqR stR).1 =
      (societyRegister envR reqR stR).1 ∧
    (societyRegister { envR with failAt := gR } reqR stR).2.db.societies =
      (societyRegister envR reqR stR).2.db.societies ∧
    (societyRegister { envR with failAt := gR } reqR stR).2.db.users =
      (societyRegister envR reqR stR).2.db.users ∧
    (societyRegister { envR with failAt := gR } reqR stR).2.db.society_documents =
      (societyRegister envR reqR stR).2.db.society_documents := by
  have hLa := developerLogin_ok envL reqL stL nL uL restL hLp (hLall stL.qidx)
    hLe hLw hLfind hLcmp hLu
  have hLb := developerLogin_ok { envL with failAt := gL } reqL stL nL uL restL hLp
    (hLg stL.qidx (by omega)) hLe hLw hLfind hLcmp hLu
  have hSa := societyLogin_ok envS reqS stS nS uS socS restS hSp (hSall stS.qidx)
    hSe hSw hSl hSapp hScmp hSu hSsoc
  have hSb := societyLogin_ok { envS with failAt := gS } reqS stS nS uS socS restS hSp
    (hSg stS.qidx (by omega)) hSe hSw hSl hSapp hScmp hSu hSsoc
  have hUa := updateSocietyApproval_dev_ok envU stU nU sid status reason tok ip ua c hUp
    (hUall stU.qidx) hUv hUr hUs
  have hUb := updateSocietyApproval_dev_ok { envU with failAt := gU } stU nU sid status
    reason tok ip ua c hUp (hUg stU.qidx (by omega)) hUv hUr hUs
  have hRa := societyRegister_validated_500 envR reqR stR nR fsR fcR fbR hRp hRm
    hRfiles hRfc hRfb hRdup hRem
  have hRb := societyRegister_validated_500 { envR with failAt := gR } reqR stR nR
    fsR fcR fbR hRp hRm hRfiles hRfc hRfb hRdup hRem
  refine ⟨?_, ?_, ?_, ?_, ?_, ?_, ?_, ?_, ?_, ?_, ?_, ?_, ?_, ?_, ?_, ?_⟩
  · rw [hLb, hLa]
  · rw [hLb, hLa]
    cases hx : gL (stL.qidx + 1) <;> simp [hx, hLall (stL.qidx + 1)]
  · rw [hLb, hLa]
    cases hx : gL (stL.qidx + 1) <;> simp [hx, hLall (stL.qidx + 1)]
  · rw [hLb, hLa]
    cases hx : gL (stL.qidx + 1) <;> simp [hx, hLall (stL.qidx + 1)]
  · rw [hSb, hSa]
  · rw [hSb, hSa]
    cases hx : gS (stS.qidx + 1) <;> simp [hx, hSall (stS.qidx + 1)]
  · rw [hSb, hSa]
    cases hx : gS (stS.qidx + 1) <;> simp [hx, hSall (stS.qidx + 1)]
  · rw [hSb, hSa]
    cases hx : gS (stS.qidx + 1) <;> simp [hx, hSall (stS.qidx + 1)]
  · rw [hUb, hUa]
  · rw [hUb, hUa]
    split <;> split <;> simp [applyStmt]
  · rw [hUb, hUa]
    split <;> split <;> simp [applyStmt]
  · rw [hUb, hUa]
    split <;> split <;> simp [applyStmt]
  · rw [hRb.1, hRa.1]
  · rw [hRb.2, hRa.2]
  · rw [hRb.2, hRa.2]
  · rw [hRb.2, hRa.2]

/-- Claim C8 witness: concrete runs of developer login over `stDev`,
society login over `stApproved`, approval update over `stAdm`, and
registration over `stOneConn`, where the injected DB error hits exactly
the audit write's statement index, answer identically to the failure-free
runs and leave identical societies, users and society_documents tables. -/
theorem C8_witness :
    (developerLogin { envW with failAt := fun i => i == 1 } ⟨"d@x", "pw", "ip", "ua"⟩ stDev).1 =
      (developerLogin envW ⟨"d@x", "pw", "ip", "ua"⟩ stDev).1 ∧
    (developerLogin { envW with failAt := fun i => i == 1 } ⟨"d@x", "pw", "ip", "ua"⟩ stDev).2.db.societies =
      (developerLogin envW ⟨"d@x", "pw", "ip", "ua"⟩ stDev).2.db.societies ∧
    (developerLogin { envW with failAt := fun i => i == 1 } ⟨"d@x", "pw", "ip", "ua"⟩ stDev).2.db.users =
      (developerLogin envW ⟨"d@x", "pw", "ip", "ua"⟩ stDev).2.db.users ∧
    (developerLogin { envW with failAt := fun i => i == 1 } ⟨"d@x", "pw", "ip", "ua"⟩ stDev).2.db.society_documents =
      (developerLogin envW ⟨"d@x", "pw", "ip", "ua"⟩ stDev).2.db.society_documents ∧
    (societyLogin { envW with failAt := fun i => i == 1 } ⟨"adm2@x", "pw", "ip", "ua"⟩ stApproved).1 =
      (societyLogin envW ⟨"adm2@x", "pw", "ip", "ua"⟩ stApproved).1 ∧
    (societyLogin { envW with failAt := fun i => i == 1 } ⟨"adm2@x", "pw", "ip", "ua"⟩ stApproved).2.db.societies =
      (societyLogin envW ⟨"adm2@x", "pw", "ip", "ua"⟩ stApproved).2.db.societies ∧
    (societyLogin { envW with failAt := fun i => i == 1 } ⟨"adm2@x", "pw", "ip", "ua"⟩ stApproved).2.db.users =
      (societyLogin envW ⟨"adm2@x", "pw", "ip", "ua"⟩ stApproved).2.db.users ∧
    (societyLogin { envW with failAt := fun i => i == 1 } ⟨"adm2@x", "pw", "ip", "ua"⟩ stApproved).2.db.society_documents =
      (societyLogin envW ⟨"adm2@x", "pw", "ip", "ua"⟩ stApproved).2.db.society_documents ∧
    (updateSocietyApproval { envW with failAt := fun i => i == 1 } "s0" "approved" "" (some "dev") "ip" "ua" stC7).1 =
      (updateSocietyApproval envW "s0" "approved" "" (some "dev") "ip" "ua" stC7).1 ∧
    (updateSocietyApproval { envW with failAt := fun i => i == 1 } "s0" "approved" "" (some "dev") "ip" "ua" stC7).2.db.societies =
      (updateSocietyApproval envW "s0" "approved" "" (some "dev") "ip" "ua" stC7).2.db.societies ∧
    (updateSocietyApproval { envW with failAt := fun i => i == 1 } "s0" "approved" "" (some "dev") "ip" "ua" stC7).2.db.users =
      (updateSocietyApproval envW "s0" "approved" "" (some "dev") "ip" "ua" stC7).2.db.users ∧
    (updateSocietyApproval { envW with failAt := fun i => i == 1 } "s0" "approved" "" (some "dev") "ip" "ua" stC7).2.db.society_documents =
      (updateSocietyApproval envW "s0" "approved" "" (some "dev") "ip" "ua" stC7).2.db.society_documents ∧
    (societyRegister { envW with failAt := fun i => i == 8 } reqAlpha stOneConn).1 =
      (societyRegister envW reqAlpha stOneConn).1 ∧
    (societyRegister { envW with failAt := fun i => i == 8 } reqAlpha stOneConn).2.db.societies =
      (societyRegister envW reqAlpha stOneConn).2.db.societies ∧
    (societyRegister { envW with failAt := fun i => i == 8 } reqAlpha stOneConn).2.db.users =
      (societyRegister envW reqAlpha stOneConn).2.db.users ∧
    (societyRegister { envW with failAt := fun i => i == 8 } reqAlpha stOneConn).2.db.society_documents =
      (societyRegister envW reqAlpha stOneConn).2.db.society_documents :=
  C8_audit_failure_does_not_change_flows
    envW (fun i => i == 1) ⟨"d@x", "pw", "ip", "ua"⟩ stDev 0 userDev []
    envW (fun i => i == 1) ⟨"adm2@x", "pw", "ip", "ua"⟩ stApproved 0 userAdm2 socApproved []
    envW (fun i => i == 1) stC7 0 "s0" "approved" "" "dev" "ip" "ua"
    ⟨"d1", "d@x", "developer", none⟩
    envW (fun i => i == 8) reqAlpha stOneConn 0 regFilesFull fileCert fileBylaws
    (fun _ => rfl) (fun i hi => by simpa using hi) rfl
    (by decide) (by decide) (by decide) (by decide) (by decide)
    (fun _ => rfl) (fun i hi => by simpa using hi) rfl
    (by decide) (by decide) (by decide) (by decide) (by decide) (by decide) (by decide)
    (fun _ => rfl) (fun i hi => by simpa using hi) rfl
    (by decide) (by decide) (by decide)
    rfl (by decide) (by decide) (by decide) (by decide) (by decide) (by decide)

/-- Claim C10 counterexample: approving the absent society id `zz` over
`stAdm` answers 200, but the audit insert — whose `society_id` foreign key
references the nonexistent id — throws and is swallowed, so afterwards the
audit_logs table is still empty, contrary to the claim's "appends an audit
entry referencing the nonexistent id". -/
theorem C10_counterexample_no_audit_row :
    (updateSocietyApproval envW "zz" "approved" "" (some "dev") "ip" "ua" stAdm).1.status = 200 ∧
    (updateSocietyApproval envW "zz" "approved" "" (some "dev") "ip" "ua" stAdm).2.db.audit_logs = [] := by
  decide

/-- Claim C10 as amended: an approval update by an authenticated developer
with a valid decision and a society id matching no existing society still
answers 200 with the requested status, and leaves the whole store — the
societies table in particular, and also audit_logs — unchanged: the UPDATE
matches no row, and the audit INSERT violates the `audit_logs.society_id`
foreign key, throws, and is swallowed by the audit recorder, so no audit
entry is appended. -/
theorem C10_approval_of_missing_society_silent (env : Env) (st : St) (n : Nat)
    (sid status reason tok ip ua : String) (c : TokenClaims)
    (hp : st.pool = List.replicate (n + 1) none)
    (hf0 : env.failAt st.qidx = false)
    (hv : env.jwtVerify tok = some c) (hr : c.role = "developer")
    (hs : status = "approved" ∨ status = "rejected")
    (hmiss : ∀ s ∈ st.db.societies, s.id ≠ sid) :
    (updateSocietyApproval env sid status reason (some tok) ip ua st).1.status = 200 ∧
    (updateSocietyApproval env sid status reason (some tok) ip ua st).1.body =
      [("societyId", sid), ("status", status)] ∧
    (updateSocietyApproval env sid status reason (some tok) ip ua st).2.db = st.db := by
  have hsv : ¬(status ≠ "approved" ∧ status ≠ "rejected") := by
    rcases hs with h | h <;> simp [h]
  have hmap : st.db.societies.map
      (fun s => if s.id = sid then { s with status := status, updated_at := env.now } else s) =
      st.db.societies := map_updateStatus_miss _ _ _ _ hmiss
  have hany : st.db.societies.any (fun s => s.id = sid) = false := by
    rw [Bool.eq_false_iff]
    intro h
    obtain ⟨x, hx, hxe⟩ := List.any_eq_true.mp h
    exact hmiss x hx (by simpa using hxe)
  have hfk : fkOk (applyStmt st.db (.updSocietyStatus status sid env.now))
      (.insAudit ⟨env.ids st.uidx, some c.userId, some sid, "SOCIETY_APPROVAL_UPDATE",
        "societies", some sid, none, some [("status", status), ("reason", reason)],
        ip, ua⟩) = false := by
    simp only [fkOk, applyStmt, hany, any_id_map_updateStatus, Bool.and_false]
  have hpc : ((env.failAt (st.qidx + 1) ||
      !(fkOk (applyStmt st.db (.updSocietyStatus status sid env.now))
        (.insAudit ⟨env.ids st.uidx, some c.userId, some sid, "SOCIETY_APPROVAL_UPDATE",
          "societies", some sid, none, some [("status", status), ("reason", reason)],
          ip, ua⟩))) = true) := by
    simp [hfk]
  rw [updateSocietyApproval_dev_ok env st n sid status reason tok ip ua c hp hf0 hv hr hsv]
  refine ⟨rfl, rfl, ?_⟩
  rw [if_pos hpc]
  simp [applyStmt, hmap]

/-- Claim C10 witness (for the amended claim): approving the absent id
`zz` over `stAdm` answers 200/approved and leaves the store exactly as it
was — no society changed and no audit row written. -/
theorem C10_witness :
    (updateSocietyApproval envW "zz" "approved" "" (some "dev") "ip" "ua" stAdm).1.status = 200 ∧
    (updateSocietyApproval envW "zz" "approved" "" (some "dev") "ip" "ua" stAdm).1.body =
      [("societyId", "zz"), ("status", "approved")] ∧
    (updateSocietyApproval envW "zz" "approved" "" (some "dev") "ip" "ua" stAdm).2.db = stAdm.db :=
  C10_approval_of_missing_society_silent envW stAdm 0 "zz" "approved" "" "dev" "ip" "ua"
    ⟨"d1", "d@x", "developer", none⟩ (by decide) (by decide) (by decide) (by decide)
    (Or.inl rfl) (by decide)

end Coopbase
